import Mathlib

/-!
Verification of the two-player billiards engine (8-ball / 9-ball variants).

This file gives a shallow embedding, in Lean 4, of the physics engine and the
turn-based rule state machine of the billiards game found in the repository
(the `Billiards` component), and settles a list of claims about it.

Conventions of the embedding:
* JavaScript numbers are modelled as real numbers (`ℝ`); `Math.sqrt` is
  `Real.sqrt`.  All exact comparisons and branch conditions of the source are
  kept as written.
* Mutation of the ball array and of the per-turn record is modelled by
  explicit state passing: each handler becomes a pure function
  `Engine → Engine` (or returns the extra data the source keeps in locals).
* `useState` setters (`setTurn`, `setPlacingBall`, `setFoulMessage`, ...)
  become field updates of the `Engine` state.  Sound playback, rendering and
  the `setTimeout` that clears the foul banner are omitted: they do not touch
  engine state.
* `endRound` is modelled as recording the round winner (`roundWinner`); the
  match-score aggregation it performs afterwards is outside the claims
  considered here.
-/

namespace Billiards

/-- Table width in world units (source constant `TABLE_WIDTH = 800`). -/
def TABLE_WIDTH : ℝ := 800

/-- Table height in world units (source constant `TABLE_HEIGHT = 400`). -/
def TABLE_HEIGHT : ℝ := 400

/-- Ball radius (source constant `BALL_RADIUS = 12`). -/
def BALL_RADIUS : ℝ := 12

/-- Pocket radius (source constant `POCKET_RADIUS = 28`). -/
def POCKET_RADIUS : ℝ := 28

/-- Number of physics sub-steps per frame (source constant `SUB_STEPS = 8`). -/
def SUB_STEPS : ℕ := 8

/-- Linear deceleration per frame (source constant `DECELERATION = 0.045`). -/
def DECELERATION : ℝ := 0.045

/-- Wall restitution (source constant `WALL_BOUNCE = 0.75`). -/
def WALL_BOUNCE : ℝ := 0.75

/-- Ball-ball restitution (source constant `BALL_RESTITUTION = 0.92`). -/
def BALL_RESTITUTION : ℝ := 0.92

/-- Maximum shot power (source constant `MAX_POWER = 45`). -/
def MAX_POWER : ℝ := 45

/-- Speed below which a ball is stopped (source `STOP_THRESHOLD = 0.08`). -/
def STOP_THRESHOLD : ℝ := 0.08

/-- The six pocket centers (source constant `POCKETS`). -/
noncomputable def POCKETS : List (ℝ × ℝ) :=
  [(0, 0), (TABLE_WIDTH / 2, -8), (TABLE_WIDTH, 0),
   (0, TABLE_HEIGHT), (TABLE_WIDTH / 2, TABLE_HEIGHT + 8), (TABLE_WIDTH, TABLE_HEIGHT)]

/-- Ball kinds (source union type `'CUE' | 'SOLID' | 'STRIPE' | 'EIGHT' | 'NINE'`). -/
inductive BallKind where
  | CUE | SOLID | STRIPE | EIGHT | NINE
  deriving DecidableEq

/-- A ball (source interface `Ball`): id, position, velocity, active flag and
kind.  `active = false` means the ball has been pocketed. -/
structure Ball where
  id : ℕ
  x : ℝ
  y : ℝ
  vx : ℝ
  vy : ℝ
  active : Bool
  kind : BallKind

/-- Game variant (source type `BilliardsMode = '8BALL' | '9BALL'`). -/
inductive Mode where
  | eightBall | nineBall
  deriving DecidableEq

/-- An assigned ball group (source `GroupType` without the `null` case; the
`null` case is `Option.none` on the `Option Group` fields below). -/
inductive Group where
  | SOLIDS | STRIPES
  deriving DecidableEq

/-- Classification of the first ball struck in 8-ball mode (source local
`hitGroup : GroupType | 'EIGHT'`). -/
inductive HitGroup where
  | hitSolids | hitStripes | hitEight
  deriving DecidableEq

/-- View an assigned group as a `HitGroup`, for the source comparison
`hitGroup !== currentGroups[currentTurn]` (string comparison in JS). -/
def Group.asHit : Group → HitGroup
  | Group.SOLIDS => HitGroup.hitSolids
  | Group.STRIPES => HitGroup.hitStripes

/-- The foul reasons surfaced by `handleTurnEnd` (the source uses
human-readable strings; we use one constructor per distinct message):
`cuePocketed` = cue ball pocketed, `noContact` = cue struck no ball,
`notLowest` = first hit not the lowest-numbered ball (9-ball),
`mustHitEight` = group cleared but first hit was not the 8,
`wrongGroup` = first hit not in the shooter's group. -/
inductive Foul where
  | cuePocketed | noContact | notLowest | mustHitEight | wrongGroup
  deriving DecidableEq

/-- Per-turn transient record (source `turnInfoRef.current`). -/
structure TurnInfo where
  pottedThisTurn : Bool
  firstHitId : Option ℕ
  nineBallPotted : Bool
  deriving DecidableEq

/-- The cleared per-turn record (source
`{ pottedThisTurn: false, firstHitId: null, nineBallPotted: false }`). -/
def emptyTurnInfo : TurnInfo := ⟨false, none, false⟩

/-- The whole rule-engine state: the ball set plus the reactive state the
handlers read through refs (`modeRef`, `turnRef`, `playerGroupsRef`,
`placingBallRef`) and write through `useState` setters.  `groups` holds
player 1's and player 2's assigned group, `foul` the currently displayed foul
message, `roundWinner` the winner recorded by `endRound` (if any), and
`isMoving` the previous frame's motion flag. -/
structure Engine where
  balls : List Ball
  mode : Mode
  turn : ℕ
  groups : Option Group × Option Group
  info : TurnInfo
  placing : Bool
  foul : Option Foul
  roundWinner : Option ℕ
  isMoving : Bool

/-- Turn switch (source `currentTurn === 1 ? 2 : 1`). -/
def otherTurn (t : ℕ) : ℕ := if t = 1 then 2 else 1

/-- The group assigned to player `t` (source `currentGroups[currentTurn]`;
indexing with a value other than 1 or 2 yields `undefined`, i.e. `none`). -/
def groupOf (t : ℕ) (g : Option Group × Option Group) : Option Group :=
  if t = 1 then g.1 else if t = 2 then g.2 else none

/-- Update the first element of a list satisfying `p` by `f` (model of the
source pattern `const b = balls.find(...); if (b) { mutate b }`). -/
def updateFirst (p : Ball → Bool) (f : Ball → Ball) : List Ball → List Ball
  | [] => []
  | b :: bs => if p b then f b :: bs else b :: updateFirst p f bs

/-- Reactivate the cue ball with zero velocity, leaving its position as it is
(source `cue.active = true; cue.vx = 0; cue.vy = 0;`). -/
def reactivateCue (balls : List Ball) : List Ball :=
  updateFirst (fun b => b.id == 0) (fun b => { b with active := true, vx := 0, vy := 0 }) balls

/-- Lowest-numbered active object ball (source
`balls.reduce((m, b) => (b.id !== 0 && b.active && b.id < m) ? b.id : m, 999)`). -/
def lowestActiveId (balls : List Ball) : ℕ :=
  balls.foldl (fun m b => if b.id ≠ 0 ∧ b.active = true ∧ b.id < m then b.id else m) 999

/-- Record the round winner (source `endRound(name)` with `name` equal to
`'P1'` or `'P2'`; we record 1 or 2).  The match-score bookkeeping `endRound`
performs afterwards is not needed by any claim and is omitted. -/
def endRound (w : ℕ) (e : Engine) : Engine := { e with roundWinner := some w }

/-- Group-assignment step of `handlePotLogic` (source: the first `if` of
`handlePotLogic`): when playing 8-ball with no groups assigned yet, the first
pocketed non-cue, non-eight id fixes both players' groups. -/
def assignGroups (ids : List ℕ) (e : Engine) : Engine :=
  if e.mode = Mode.eightBall ∧ e.groups.1 = none then
    match ids.find? (fun id => id != 0 && id != 8) with
    | some first =>
      let t : Group := if first < 8 then Group.SOLIDS else Group.STRIPES
      let o : Group := if first < 8 then Group.STRIPES else Group.SOLIDS
      { e with groups := (if e.turn = 1 then some t else some o,
                          if e.turn = 2 then some t else some o) }
    | none => e
  else e

/-- Group-assignment and eight-ball-pot logic run when balls are pocketed
during a frame (source `handlePotLogic(ids)`).  `ids` is the list of ball ids
pocketed this frame, in pocketing order. -/
def handlePotLogic (ids : List ℕ) (e : Engine) : Engine :=
  -- source: if (ids.includes(0)) return;
  if 0 ∈ ids then e
  else
    -- source: group assignment when no group has been assigned yet
    let e1 := assignGroups ids e
    -- source: if the 8-ball is among the pocketed ids, the round ends now
    if e1.mode = Mode.eightBall ∧ 8 ∈ ids then
      let act := e1.balls.filter (fun b =>
        decide (b.active = true ∧ b.id ≠ 0 ∧ b.id ≠ 8))
      -- source: endRound(active.length === 0 && turnInfoRef.current.firstHitId
      --   ? shooter : opponent); a JS number is truthy iff nonzero, and
      --   firstHitId is null or a nonzero object-ball id
      let win : Bool := act.length == 0 &&
        (match e1.info.firstHitId with | some k => k != 0 | none => false)
      endRound (if win then (if e1.turn = 1 then 1 else 2) else (if e1.turn = 1 then 2 else 1)) e1
    else e1

/-- Foul-detection chain of `handleTurnEnd` (source lines from the `let
foul` declaration to the end of the `else if` chain).  The first component
is the detected foul (source local `foul`), the second the ball list after
the possible cue reactivation, the third the `placingBall` flag after the
possible `setPlacingBall(true)`. -/
def turnFoulScan (e : Engine) : Option Foul × List Ball × Bool :=
  match e.balls.find? (fun b => b.id == 0) with
    | none =>
      -- source: if (!cue || !cue.active) — with no cue ball found nothing is
      -- reactivated but the foul and placement state are still set
      (some Foul.cuePocketed, e.balls, true)
    | some cue =>
      if cue.active = false then
        (some Foul.cuePocketed, reactivateCue e.balls, true)
      else if e.info.firstHitId = none then
        (some Foul.noContact, e.balls, true)
      else if e.mode = Mode.nineBall then
        if e.info.firstHitId ≠ some (lowestActiveId e.balls) then
          (some Foul.notLowest, e.balls, true)
        else (none, e.balls, e.placing)
      else
        match e.mode, groupOf e.turn e.groups with
        | Mode.eightBall, some g =>
          match (match e.info.firstHitId with
                 | some k => e.balls.find? (fun b : Ball => b.id == k)
                 | none => none : Option Ball) with
          | some first =>
            let hitGroup : HitGroup :=
              if first.id < 8 then HitGroup.hitSolids
              else if 8 < first.id then HitGroup.hitStripes
              else HitGroup.hitEight
            let onEight : Bool := (e.balls.filter (fun b : Ball =>
              decide (b.active = true ∧ b.id ≠ 0 ∧ b.id ≠ 8 ∧
                ((b.id < 8 ∧ g = Group.SOLIDS) ∨ (8 < b.id ∧ g = Group.STRIPES))))).length == 0
            if onEight = true then
              if first.id ≠ 8 then (some Foul.mustHitEight, e.balls, true)
              else (none, e.balls, e.placing)
            else
              if hitGroup ≠ g.asHit then (some Foul.wrongGroup, e.balls, true)
              else (none, e.balls, e.placing)
          | none => (none, e.balls, e.placing)
        | _, _ => (none, e.balls, e.placing)

/-- Turn evaluation once every ball has settled (source `handleTurnEnd`):
run the foul-detection chain, then either record the foul and pass the turn,
or continue / pass / end the round according to what was potted. -/
def handleTurnEnd (e : Engine) : Engine :=
  match turnFoulScan e with
  | (some f, balls1, placing1) =>
    -- source: setFoulMessage, playSound.wrong, setTurn(other); then the
    -- unconditional turn-record reset
    { e with balls := balls1, placing := placing1, foul := some f,
             turn := otherTurn e.turn, info := emptyTurnInfo }
  | (none, balls1, placing1) =>
    if e.info.pottedThisTurn = true then
      if e.mode = Mode.nineBall ∧ e.info.nineBallPotted = true then
        -- source: endRound(...); return;  — note the early return skips the
        -- turn-record reset
        endRound (if e.turn = 1 then 1 else 2) { e with balls := balls1, placing := placing1 }
      else
        { e with balls := balls1, placing := placing1, info := emptyTurnInfo }
    else
      { e with balls := balls1, placing := placing1, turn := otherTurn e.turn,
               info := emptyTurnInfo }

/-- Squared center distance of two balls. -/
def dist2 (b1 b2 : Ball) : ℝ := (b2.x - b1.x) ^ 2 + (b2.y - b1.y) ^ 2

open Classical in
/-- Cue-ball placement attempt (source `handleMouseDown`, placing branch):
the position must be inside the table inset by one radius and must not
overlap any active object ball; on success the cue ball is moved there and
placement mode ends, otherwise (source `playSound.wrong()`) nothing changes.
The returned Bool is the acceptance signal. -/
noncomputable def placeCueBall (e : Engine) (px py : ℝ) : Engine × Bool :=
  let inTable : Prop :=
    BALL_RADIUS ≤ px ∧ px ≤ TABLE_WIDTH - BALL_RADIUS ∧
    BALL_RADIUS ≤ py ∧ py ≤ TABLE_HEIGHT - BALL_RADIUS
  let overlaps : Prop := ∃ b ∈ e.balls, b.id ≠ 0 ∧ b.active = true ∧
    (b.x - px) ^ 2 + (b.y - py) ^ 2 < (BALL_RADIUS * 2) ^ 2
  if inTable ∧ ¬overlaps then
    ((match e.balls.find? (fun b => b.id == 0) with
      | some _ =>
        { e with
          balls := (updateFirst (fun b => b.id == 0)
            (fun b => { b with x := px, y := py }) e.balls),
          placing := false }
      | none => e), true)
  else (e, false)

noncomputable section
open Classical

/-- Physics state threaded through one frame of `updatePhysics`: the ball
list, the per-turn record, and the frame-local `moving` flag and `potted`
id list of the source. -/
structure Phys where
  balls : List Ball
  info : TurnInfo
  moving : Bool
  potted : List ℕ

/-- Integration, deceleration, wall reflection and pocket capture for one
ball in one sub-step (source `updatePhysics`, per-ball body of the sub-step
loop).  Returns the updated ball, whether it keeps the `moving` flag set,
and whether it was pocketed in this sub-step. -/
def moveBall (placing : Bool) (b : Ball) : Ball × Bool × Bool :=
  if b.active = false ∨ (placing = true ∧ b.id = 0) then (b, false, false)
  else
    let x1 := b.x + b.vx / (SUB_STEPS : ℝ)
    let y1 := b.y + b.vy / (SUB_STEPS : ℝ)
    let spd := Real.sqrt (b.vx * b.vx + b.vy * b.vy)
    -- source: deceleration with hard stop below STOP_THRESHOLD
    let dec : ℝ × ℝ × Bool :=
      if 0 < spd then
        let nSpd := max 0 (spd - DECELERATION / (SUB_STEPS : ℝ))
        if nSpd < STOP_THRESHOLD then (0, 0, false)
        else (b.vx * nSpd / spd, b.vy * nSpd / spd, true)
      else (b.vx, b.vy, false)
    -- source: the four wall clamps, applied in order
    let wx1 : ℝ × ℝ :=
      if x1 < BALL_RADIUS then (BALL_RADIUS, |dec.1| * WALL_BOUNCE) else (x1, dec.1)
    let wx2 : ℝ × ℝ :=
      if TABLE_WIDTH - BALL_RADIUS < wx1.1 then
        (TABLE_WIDTH - BALL_RADIUS, -(|wx1.2| * WALL_BOUNCE))
      else wx1
    let wy1 : ℝ × ℝ :=
      if y1 < BALL_RADIUS then (BALL_RADIUS, |dec.2.1| * WALL_BOUNCE) else (y1, dec.2.1)
    let wy2 : ℝ × ℝ :=
      if TABLE_HEIGHT - BALL_RADIUS < wy1.1 then
        (TABLE_HEIGHT - BALL_RADIUS, -(|wy1.2| * WALL_BOUNCE))
      else wy1
    -- source: pocket capture test (`POCKETS.some(...)`)
    let pk : Prop := ∃ p ∈ POCKETS,
      (wx2.1 - p.1) ^ 2 + (wy2.1 - p.2) ^ 2 < (POCKET_RADIUS * 1.2) ^ 2
    if pk then
      ({ b with x := wx2.1, y := wy2.1, vx := 0, vy := 0, active := false }, dec.2.2, true)
    else
      ({ b with x := wx2.1, y := wy2.1, vx := wx2.2, vy := wy2.2 }, dec.2.2, false)

/-- Per-ball phase of one sub-step (source: the `balls.forEach` part),
accumulating the `moving` flag, the pocketed ids and the 9-ball flag. -/
def phase1 (placing : Bool) (ph : Phys) : Phys :=
  let rs := ph.balls.map (moveBall placing)
  { balls := rs.map (fun r => r.1),
    info := { ph.info with nineBallPotted :=
      ph.info.nineBallPotted || rs.any (fun r => r.2.2 && (r.1.id == 9)) },
    moving := ph.moving || rs.any (fun r => r.2.1),
    potted := ph.potted ++ (rs.filter (fun r => r.2.2)).map (fun r => r.1.id) }

/-- Positional separation and velocity resolution for one overlapping pair
(source: body of the pairwise collision loop, after the overlap test). -/
def resolvePair (b1 b2 : Ball) : Ball × Ball :=
  let dx := b2.x - b1.x
  let dy := b2.y - b1.y
  let d2 := dx * dx + dy * dy
  let d := Real.sqrt d2
  let nx := dx / d
  let ny := dy / d
  let corr := (BALL_RADIUS * 2 - d) * 0.5
  let v1n := b1.vx * nx + b1.vy * ny
  let v2n := b2.vx * nx + b2.vy * ny
  let tx := -ny
  let ty := nx
  let v1t := b1.vx * tx + b1.vy * ty
  let v2t := b2.vx * tx + b2.vy * ty
  let v1nn := (v1n * (1 - BALL_RESTITUTION) + v2n * (1 + BALL_RESTITUTION)) / 2
  let v2nn := (v1n * (1 + BALL_RESTITUTION) + v2n * (1 - BALL_RESTITUTION)) / 2
  ({ b1 with x := b1.x - nx * corr, y := b1.y - ny * corr,
             vx := v1nn * nx + v1t * tx, vy := v1nn * ny + v1t * ty },
   { b2 with x := b2.x + nx * corr, y := b2.y + ny * corr,
             vx := v2nn * nx + v2t * tx, vy := v2nn * ny + v2t * ty })

/-- One iteration of the pairwise collision loop at index pair `ij`
(source: body of the `i`/`j` loops), including the first-contact record. -/
def collideAt (placing : Bool) (ph : Phys) (ij : ℕ × ℕ) : Phys :=
  match ph.balls[ij.1]?, ph.balls[ij.2]? with
  | some b1, some b2 =>
    if b1.active = false ∨ b2.active = false ∨
       (placing = true ∧ (b1.id = 0 ∨ b2.id = 0)) then ph
    else
      let dx := b2.x - b1.x
      let dy := b2.y - b1.y
      let d2 := dx * dx + dy * dy
      if d2 < (BALL_RADIUS * 2) ^ 2 then
        let r := resolvePair b1 b2
        let fh : Option ℕ :=
          if b1.id = 0 ∧ ph.info.firstHitId = none then some b2.id
          else if b2.id = 0 ∧ ph.info.firstHitId = none then some b1.id
          else ph.info.firstHitId
        { ph with balls := (ph.balls.set ij.1 r.1).set ij.2 r.2,
                  info := { ph.info with firstHitId := fh } }
      else ph
  | _, _ => ph

/-- Index pairs `(i, j)` with `i < j < n`, in the iteration order of the
source's nested `for` loops. -/
def pairIndices (n : ℕ) : List (ℕ × ℕ) :=
  ((List.range n).map (fun i => (List.range n).filterMap
    (fun j => if i < j then some (i, j) else none))).flatten

/-- Pairwise collision phase of one sub-step. -/
def phase2 (placing : Bool) (ph : Phys) : Phys :=
  (pairIndices ph.balls.length).foldl (collideAt placing) ph

/-- One physics sub-step: per-ball integration then pairwise collisions. -/
def subStep (placing : Bool) (ph : Phys) : Phys :=
  phase2 placing (phase1 placing ph)

/-- One frame of physics: `SUB_STEPS` sub-steps, starting from a fresh
`moving` flag and `potted` list (source `updatePhysics`, lines before the
pot handling). -/
def physFrame (placing : Bool) (balls : List Ball) (info : TurnInfo) : Phys :=
  (subStep placing)^[SUB_STEPS] ⟨balls, info, false, []⟩

/-- One full engine tick (source `updatePhysics`): run the frame, feed the
pocketed ids to `handlePotLogic`, publish the motion flag, and run
`handleTurnEnd` when the balls have just come to rest. -/
def updatePhysics (e : Engine) : Engine :=
  let ph := physFrame e.placing e.balls e.info
  let e1 : Engine := { e with balls := ph.balls, info := ph.info }
  let e2 :=
    if ph.potted ≠ [] then
      handlePotLogic ph.potted { e1 with info := { e1.info with pottedThisTurn := true } }
    else e1
  let e3 := { e2 with isMoving := ph.moving }
  if ph.moving = false ∧ e.isMoving = true then handleTurnEnd e3 else e3

/-- Rack column spacing (source `dist = Math.sqrt((2 * r) ** 2 - r ** 2) + 0.5`). -/
def rackDist : ℝ := Real.sqrt ((2 * BALL_RADIUS) ^ 2 - BALL_RADIUS ^ 2) + 0.5

/-- The cue ball as placed at round start (source `initRound`). -/
def cueBallInit : Ball := ⟨0, 200, TABLE_HEIGHT / 2, 0, 0, true, BallKind.CUE⟩

/-- One racked object ball of the 8-ball pattern: column `colIndex`, row
`rowIndex` of a row of length `rowLen`, with jitter `j id` (source
`initRound`, 8-ball branch; the jitter models `Math.random() * 0.1`). -/
def rackedBall8 (j : ℕ → ℝ × ℝ) (id colIndex rowIndex rowLen : ℕ) : Ball :=
  let x : ℝ := 600 + (colIndex : ℝ) * rackDist
  let y : ℝ := TABLE_HEIGHT / 2 + (rowIndex : ℝ) * 2 * BALL_RADIUS -
    ((rowLen : ℝ) - 1) * BALL_RADIUS
  ⟨id, x + (j id).1, y + (j id).2, 0, 0, true,
   if id = 8 then BallKind.EIGHT else if 8 < id then BallKind.STRIPE else BallKind.SOLID⟩

/-- The 8-ball rack (source `initRound`, 8-ball branch, pattern
`[[1], [2, 9], [3, 8, 10], [4, 15, 12, 5], [6, 7, 13, 14, 11]]`). -/
def initRound8 (j : ℕ → ℝ × ℝ) : List Ball :=
  [cueBallInit,
   rackedBall8 j 1 0 0 1,
   rackedBall8 j 2 1 0 2, rackedBall8 j 9 1 1 2,
   rackedBall8 j 3 2 0 3, rackedBall8 j 8 2 1 3, rackedBall8 j 10 2 2 3,
   rackedBall8 j 4 3 0 4, rackedBall8 j 15 3 1 4, rackedBall8 j 12 3 2 4,
   rackedBall8 j 5 3 3 4,
   rackedBall8 j 6 4 0 5, rackedBall8 j 7 4 1 5, rackedBall8 j 13 4 2 5,
   rackedBall8 j 14 4 3 5, rackedBall8 j 11 4 4 5]

/-- One racked object ball of the 9-ball diamond: column `c`, row offset
`rr` (source `initRound`, 9-ball branch, `y = startY + p.r * 2 * r`). -/
def rackedBall9 (j : ℕ → ℝ × ℝ) (id : ℕ) (c : ℕ) (rr : ℝ) : Ball :=
  let x : ℝ := 600 + (c : ℝ) * rackDist
  let y : ℝ := TABLE_HEIGHT / 2 + rr * 2 * BALL_RADIUS
  ⟨id, x + (j id).1, y + (j id).2, 0, 0, true,
   if id = 9 then BallKind.NINE else BallKind.SOLID⟩

/-- The 9-ball rack (source `initRound`, 9-ball branch, ids
`[1, 2, 3, 9, 5, 6, 7, 8, 4]` at the listed diamond offsets). -/
def initRound9 (j : ℕ → ℝ × ℝ) : List Ball :=
  [cueBallInit,
   rackedBall9 j 1 0 0,
   rackedBall9 j 2 1 (-0.5), rackedBall9 j 3 1 0.5,
   rackedBall9 j 9 2 0, rackedBall9 j 5 2 (-1), rackedBall9 j 6 2 1,
   rackedBall9 j 7 3 (-0.5), rackedBall9 j 8 3 0.5,
   rackedBall9 j 4 4 0]

/-- Admissible jitter: each call of `Math.random() * 0.1` lies in `[0, 0.1)`. -/
def validJitter (j : ℕ → ℝ × ℝ) : Prop :=
  ∀ i, 0 ≤ (j i).1 ∧ (j i).1 < 0.1 ∧ 0 ≤ (j i).2 ∧ (j i).2 < 0.1

end

/-! Claim formalisations and concrete game situations used to settle them.

The "shot-time" ball set of a turn is related to the settled ball set by
deactivating the balls pocketed during the turn; `markInactive` expresses
that relation (pocketed balls are deactivated with zero velocity, exactly as
the pocket branch of the physics loop leaves them). -/

/-- Deactivate (with zero velocity) the balls whose ids are in `pot`. -/
def markInactive (balls : List Ball) (pot : List ℕ) : List Ball :=
  balls.map (fun b =>
    if b.id ∈ pot then { b with active := false, vx := 0, vy := 0 } else b)

/-- Ball id `i` belongs to group `g` (solids are ids 1–7, stripes 9–15). -/
def inGroup (g : Group) (i : ℕ) : Prop :=
  (g = Group.SOLIDS ∧ i < 8) ∨ (g = Group.STRIPES ∧ 8 < i)

instance (g : Group) (i : ℕ) : Decidable (inGroup g i) := by
  unfold inGroup; infer_instance

/-- Every ball of group `g` is off the table. -/
def groupCleared (g : Group) (balls : List Ball) : Prop :=
  ∀ b ∈ balls, b.active = true → b.id ≠ 0 → b.id ≠ 8 → ¬ inGroup g b.id

instance (g : Group) (balls : List Ball) : Decidable (groupCleared g balls) := by
  unfold groupCleared; infer_instance

/-- The condition under which the source's eight-ball-pot branch declares the
shooter the winner: no active object ball other than the 8 remains on the
table (whatever its group), and `firstHitId` is a truthy id. -/
def eightWinCond (e : Engine) : Prop :=
  (∀ b ∈ e.balls, b.active = true → b.id = 0 ∨ b.id = 8) ∧
  e.info.firstHitId ≠ none ∧ e.info.firstHitId ≠ some 0

instance (e : Engine) : Decidable (eightWinCond e) := by
  unfold eightWinCond; infer_instance

/-- Claim C1 as stated: in 8-ball, when the 8 is potted on a turn with no
foul of types 1–4 (here: no scratch in the same frame and a legal first hit
on the 8, the shooter's group being cleared makes the 8 the only legal
target), the shooter wins the round if and only if the shooter's own
assigned group was already cleared. -/
def claimC1 : Prop := ∀ (e : Engine) (ids : List ℕ) (g : Group),
  e.mode = Mode.eightBall → 8 ∈ ids → 0 ∉ ids →
  groupOf e.turn e.groups = some g →
  e.info.firstHitId = some 8 →
  ((handlePotLogic ids e).roundWinner = some e.turn ↔ groupCleared g e.balls)

/-- Claim C2 as stated: in 9-ball, a settled turn is foul-free exactly when
the first ball struck was the lowest-numbered ball active at shot time
(`pre` is the shot-time ball set; the settled set deactivates the balls
pocketed during the turn). -/
def claimC2 : Prop := ∀ (e : Engine) (pre : List Ball) (pot : List ℕ) (c : Ball) (k : ℕ),
  e.mode = Mode.nineBall →
  e.balls = markInactive pre pot →
  e.balls.find? (fun b => b.id == 0) = some c → c.active = true →
  e.foul = none →
  e.info.firstHitId = some k →
  ((handleTurnEnd e).foul ≠ none ↔ k ≠ lowestActiveId pre)

/-- Claim C3 as stated: in 9-ball, a turn that pockets the 9 with no foul —
in particular with a legal first strike on the ball that was
lowest-numbered at shot time — wins the round for the shooter immediately. -/
def claimC3 : Prop := ∀ (e : Engine) (pre : List Ball) (pot : List ℕ) (c : Ball) (k : ℕ),
  e.mode = Mode.nineBall →
  e.balls = markInactive pre pot →
  e.balls.find? (fun b => b.id == 0) = some c → c.active = true →
  e.info.pottedThisTurn = true → e.info.nineBallPotted = true →
  e.info.firstHitId = some k → k = lowestActiveId pre →
  9 ∈ pot → 0 ∉ pot →
  (handleTurnEnd e).roundWinner = some (if e.turn = 1 then 1 else 2)

/-- Claim C10 as stated: every turn evaluation, whatever its outcome, leaves
the per-turn record cleared. -/
def claimC10 : Prop := ∀ e : Engine, (handleTurnEnd e).info = emptyTurnInfo

/-- Concrete 8-ball situation for C1: player 1 (solids) has cleared all
seven solids, the stripes 9 and 10 are still up, and the 8 has just been
potted after a legal first hit on the 8. -/
def ballsC1 : List Ball :=
  [⟨0, 200, 200, 0, 0, true, BallKind.CUE⟩,
   ⟨1, 300, 100, 0, 0, false, BallKind.SOLID⟩, ⟨2, 310, 130, 0, 0, false, BallKind.SOLID⟩,
   ⟨3, 320, 160, 0, 0, false, BallKind.SOLID⟩, ⟨4, 330, 190, 0, 0, false, BallKind.SOLID⟩,
   ⟨5, 340, 220, 0, 0, false, BallKind.SOLID⟩, ⟨6, 350, 250, 0, 0, false, BallKind.SOLID⟩,
   ⟨7, 360, 280, 0, 0, false, BallKind.SOLID⟩, ⟨8, 370, 310, 0, 0, false, BallKind.EIGHT⟩,
   ⟨9, 500, 300, 0, 0, true, BallKind.STRIPE⟩, ⟨10, 530, 300, 0, 0, true, BallKind.STRIPE⟩]

/-- Engine state for the C1 counterexample. -/
def engineC1 : Engine :=
  { balls := ballsC1, mode := Mode.eightBall, turn := 1,
    groups := (some Group.SOLIDS, some Group.STRIPES),
    info := ⟨true, some 8, false⟩, placing := false, foul := none,
    roundWinner := none, isMoving := false }

/-- Concrete 8-ball situation for the C1 amended theorem: every object ball
including the 8 is down, the first hit was the 8. -/
def engineC1w : Engine :=
  { balls := [⟨0, 200, 200, 0, 0, true, BallKind.CUE⟩,
              ⟨8, 370, 310, 0, 0, false, BallKind.EIGHT⟩,
              ⟨9, 500, 300, 0, 0, false, BallKind.STRIPE⟩],
    mode := Mode.eightBall, turn := 1,
    groups := (some Group.SOLIDS, some Group.STRIPES),
    info := ⟨true, some 8, false⟩, placing := false, foul := none,
    roundWinner := none, isMoving := false }

/-- Shot-time ball set for the C2 counterexample: balls 1 and 3 active,
ball 1 is the lowest. -/
def preC2 : List Ball :=
  [⟨0, 200, 200, 0, 0, true, BallKind.CUE⟩,
   ⟨1, 400, 200, 0, 0, true, BallKind.SOLID⟩,
   ⟨3, 500, 200, 0, 0, true, BallKind.SOLID⟩]

/-- Settled engine state for the C2 counterexample: the cue struck ball 1
first (the lowest at shot time) and ball 1 itself was pocketed. -/
def engineC2 : Engine :=
  { balls := markInactive preC2 [1], mode := Mode.nineBall, turn := 1,
    groups := (none, none), info := ⟨true, some 1, false⟩, placing := false,
    foul := none, roundWinner := none, isMoving := false }

/-- Settled 9-ball state for the C2 amended theorem: balls 1 and 3 active,
the cue struck ball 3 first. -/
def engineC2w : Engine :=
  { balls := preC2, mode := Mode.nineBall, turn := 1,
    groups := (none, none), info := ⟨true, some 3, false⟩, placing := false,
    foul := none, roundWinner := none, isMoving := false }

/-- Shot-time ball set for the C3 counterexample: only the 9 is left. -/
def preC3 : List Ball :=
  [⟨0, 200, 200, 0, 0, true, BallKind.CUE⟩,
   ⟨9, 600, 200, 0, 0, true, BallKind.NINE⟩]

/-- Settled engine state for the C3 counterexample: the cue legally struck
the 9 (the lowest ball at shot time) and pocketed it. -/
def engineC3 : Engine :=
  { balls := markInactive preC3 [9], mode := Mode.nineBall, turn := 1,
    groups := (none, none), info := ⟨true, some 9, true⟩, placing := false,
    foul := none, roundWinner := none, isMoving := false }

/-- Settled 9-ball state for the C3 amended theorem: ball 1 was struck
first and survives (still the lowest), the 9 went down off the carom. -/
def engineC3w : Engine :=
  { balls := [⟨0, 200, 200, 0, 0, true, BallKind.CUE⟩,
              ⟨1, 400, 200, 0, 0, true, BallKind.SOLID⟩,
              ⟨9, 600, 200, 0, 0, false, BallKind.NINE⟩],
    mode := Mode.nineBall, turn := 1,
    groups := (none, none), info := ⟨true, some 1, true⟩, placing := false,
    foul := none, roundWinner := none, isMoving := false }

/-- Settled state with the cue ball pocketed (scratch), for C4. -/
def scratchEngine : Engine :=
  { balls := [⟨0, 300, 200, 1, 2, false, BallKind.CUE⟩,
              ⟨1, 400, 200, 0, 0, true, BallKind.SOLID⟩,
              ⟨9, 600, 200, 0, 0, true, BallKind.NINE⟩],
    mode := Mode.nineBall, turn := 1,
    groups := (none, none), info := ⟨true, some 1, false⟩, placing := false,
    foul := none, roundWinner := none, isMoving := false }

/-- A ball's center lies within the table bounds, inset by one radius. -/
def ballInBounds (b : Ball) : Prop :=
  BALL_RADIUS ≤ b.x ∧ b.x ≤ TABLE_WIDTH - BALL_RADIUS ∧
  BALL_RADIUS ≤ b.y ∧ b.y ≤ TABLE_HEIGHT - BALL_RADIUS

/-- Claim C5 as stated: whenever a frame ends with every ball at rest
(`moving = false`), every ball is either pocketed or rests with its center
inside the table bounds. -/
def claimC5 : Prop := ∀ (balls : List Ball) (info : TurnInfo),
  (physFrame false balls info).moving = false →
  ∀ b ∈ (physFrame false balls info).balls, b.active = true → ballInBounds b

noncomputable section
open Classical

/-- Velocity of `b2` relative to `b1` projected on the contact normal (the
unit vector from `b1`'s center to `b2`'s center), as the collision code
computes it (`v2n - v1n` with `nx = dx/d`, `ny = dy/d`, `d = Math.sqrt(d2)`). -/
def relNormalVel (b1 b2 : Ball) : ℝ :=
  (b2.vx - b1.vx) * ((b2.x - b1.x) /
    Real.sqrt ((b2.x - b1.x) * (b2.x - b1.x) + (b2.y - b1.y) * (b2.y - b1.y))) +
  (b2.vy - b1.vy) * ((b2.y - b1.y) /
    Real.sqrt ((b2.x - b1.x) * (b2.x - b1.x) + (b2.y - b1.y) * (b2.y - b1.y)))

/-- Relative velocity along the collision's contact normal after the engine
has resolved the pair `(b1, b2)`. -/
def postRelNormalVel (b1 b2 : Ball) : ℝ :=
  ((resolvePair b1 b2).2.vx - (resolvePair b1 b2).1.vx) * ((b2.x - b1.x) /
    Real.sqrt ((b2.x - b1.x) * (b2.x - b1.x) + (b2.y - b1.y) * (b2.y - b1.y))) +
  ((resolvePair b1 b2).2.vy - (resolvePair b1 b2).1.vy) * ((b2.y - b1.y) /
    Real.sqrt ((b2.x - b1.x) * (b2.x - b1.x) + (b2.y - b1.y) * (b2.y - b1.y)))

end

/-- Claim C6 as stated: every ball-ball collision the engine resolves (an
overlapping pair of distinct active balls) strictly decreases the magnitude
of the relative velocity along the contact normal. -/
def claimC6 : Prop := ∀ b1 b2 : Ball,
  b1.active = true → b2.active = true →
  0 < dist2 b1 b2 → dist2 b1 b2 < (BALL_RADIUS * 2) ^ 2 →
  |postRelNormalVel b1 b2| < |relNormalVel b1 b2|

/-- Claim C9 as stated: for every jitter outcome, racking (in either
variant) yields pairwise non-overlapping balls, all inside the table. -/
def claimC9 : Prop := ∀ j : ℕ → ℝ × ℝ, validJitter j →
  (List.Pairwise (fun a b => (BALL_RADIUS * 2) ^ 2 ≤ dist2 a b) (initRound8 j) ∧
    ∀ b ∈ initRound8 j, ballInBounds b) ∧
  (List.Pairwise (fun a b => (BALL_RADIUS * 2) ^ 2 ≤ dist2 a b) (initRound9 j) ∧
    ∀ b ∈ initRound9 j, ballInBounds b)

/-- A jitter outcome that makes balls 2 and 9 of the 8-ball rack overlap:
ball 2 is jittered 0.09 downward (towards ball 9), every other jitter is 0. -/
noncomputable def jitterC9 : ℕ → ℝ × ℝ := fun i => if i = 2 then (0, 0.09) else (0, 0)

/-- Placement state for C8: an active object ball (id 5) sits at (300, 200). -/
def engineC8 : Engine :=
  { balls := [⟨0, 100, 200, 0, 0, true, BallKind.CUE⟩,
              ⟨5, 300, 200, 0, 0, true, BallKind.SOLID⟩],
    mode := Mode.eightBall, turn := 2,
    groups := (none, none), info := ⟨false, none, false⟩, placing := true,
    foul := some Foul.cuePocketed, roundWinner := none, isMoving := false }

/-- A physics state with an already-recorded first hit, used to witness the
`firstHitId` preservation. -/
def physC7 : Phys := ⟨[], ⟨false, some 3, false⟩, false, []⟩

/-- A physics state with the cue ball overlapping ball 7 and no first hit
recorded yet, used to witness the first-contact recording. -/
def physC7b : Phys :=
  ⟨[⟨0, 300, 200, 2, 0, true, BallKind.CUE⟩,
    ⟨7, 320, 200, 0, 0, true, BallKind.SOLID⟩], ⟨false, none, false⟩, false, []⟩

/-- The resting ball against the left cushion, pushed out of bounds by `v`,
in the C5 counterexample. -/
def cexBallB (v : ℝ) : Ball := ⟨1, 12 - v, 200, 0, 0, true, BallKind.SOLID⟩

/-- The ball that stopped against `cexBallB` with residual overlap `v`. -/
def cexBallA (v : ℝ) : Ball := ⟨2, 36 - v, 200, 0, 0, true, BallKind.SOLID⟩

/-- The overlapping resting configuration reached after the first sub-step
of the C5 counterexample frame. -/
def cexPhys (v : ℝ) : Phys := ⟨[cexBallB v, cexBallA v], emptyTurnInfo, false, []⟩

/-- Start of the C5 counterexample frame: ball 1 rests against the left
cushion, ball 2 rolls towards it at speed 0.08 (just above the stop
threshold) with a gap of 0.005. -/
def cexStartBalls : List Ball :=
  [⟨1, 12, 200, 0, 0, true, BallKind.SOLID⟩,
   ⟨2, 36.005, 200, -0.08, 0, true, BallKind.SOLID⟩]

/-! Helper lemmas. -/

lemma find?_reactivateCue (l : List Ball) (c : Ball)
    (h : l.find? (fun b => b.id == 0) = some c) :
    (reactivateCue l).find? (fun b => b.id == 0) =
      some { c with active := true, vx := 0, vy := 0 } := by
  induction l with
  | nil => simp [List.find?] at h
  | cons b bs ih =>
    by_cases hb : ((fun x : Ball => x.id == 0) b) = true
    · rw [List.find?_cons_of_pos bs hb] at h
      injection h with h
      subst h
      show List.find? _ (updateFirst _ _ (b :: bs)) = _
      simp only [updateFirst, if_pos hb]
      exact List.find?_cons_of_pos bs hb
    · rw [List.find?_cons_of_neg bs hb] at h
      show List.find? _ (updateFirst _ _ (b :: bs)) = _
      simp only [updateFirst, if_neg hb]
      rw [List.find?_cons_of_neg (updateFirst (fun x : Ball => x.id == 0)
        (fun x => { x with active := true, vx := 0, vy := 0 }) bs) hb]
      exact ih h

lemma assignGroups_eq (ids : List ℕ) (e : Engine) :
    ∃ g2, assignGroups ids e = { e with groups := g2 } := by
  unfold assignGroups
  split
  · rcases ids.find? (fun id => id != 0 && id != 8) with _ | first
    · exact ⟨e.groups, rfl⟩
    · exact ⟨_, rfl⟩
  · exact ⟨e.groups, rfl⟩

/-- Foul detection in 9-ball mode with an active cue ball and a recorded
first hit: the only possible foul is the lowest-ball rule, judged against
the balls still active at settle time. -/
lemma turnFoulScan_nine (e : Engine) (c : Ball) (k : ℕ)
    (hm : e.mode = Mode.nineBall)
    (hc : e.balls.find? (fun b => b.id == 0) = some c) (ha : c.active = true)
    (hf : e.info.firstHitId = some k) :
    turnFoulScan e = if k = lowestActiveId e.balls
                     then (none, e.balls, e.placing)
                     else (some Foul.notLowest, e.balls, true) := by
  unfold turnFoulScan
  rw [hc]
  by_cases hk : k = lowestActiveId e.balls
  · simp [ha, hf, hm, hk]
  · simp [ha, hf, hm, hk]

/-! Theorems for claim C4 (scratch handling). -/

/-- Claim C4, confirmed: whenever the cue ball is found pocketed at settle
time, `handleTurnEnd` declares the cue-ball-pocketed foul, enters placement
mode, passes the turn, reactivates the cue ball with zero velocity at its
old position, and does not end the round. -/
theorem C4_scratch (e : Engine) (c : Ball)
    (hc : e.balls.find? (fun b => b.id == 0) = some c) (ha : c.active = false) :
    (handleTurnEnd e).foul = some Foul.cuePocketed ∧
    (handleTurnEnd e).placing = true ∧
    (handleTurnEnd e).turn = otherTurn e.turn ∧
    (handleTurnEnd e).balls.find? (fun b => b.id == 0) =
      some { c with active := true, vx := 0, vy := 0 } ∧
    (handleTurnEnd e).roundWinner = e.roundWinner := by
  have hscan : turnFoulScan e = (some Foul.cuePocketed, reactivateCue e.balls, true) := by
    unfold turnFoulScan
    rw [hc]
    simp [ha]
  unfold handleTurnEnd
  rw [hscan]
  exact ⟨rfl, rfl, rfl, find?_reactivateCue e.balls c hc, rfl⟩

/-- Witness for C4 at a concrete scratch state. -/
theorem C4_scratch_witness :
    (handleTurnEnd scratchEngine).foul = some Foul.cuePocketed ∧
    (handleTurnEnd scratchEngine).placing = true ∧
    (handleTurnEnd scratchEngine).turn = otherTurn scratchEngine.turn ∧
    (handleTurnEnd scratchEngine).balls.find? (fun b => b.id == 0) =
      some { (⟨0, 300, 200, 1, 2, false, BallKind.CUE⟩ : Ball) with
             active := true, vx := 0, vy := 0 } ∧
    (handleTurnEnd scratchEngine).roundWinner = scratchEngine.roundWinner :=
  C4_scratch scratchEngine ⟨0, 300, 200, 1, 2, false, BallKind.CUE⟩ rfl rfl

/-! Theorems for claim C10 (turn-record reset). -/

/-- Counterexample to claim C10 as stated: on the 9-ball round-winning path
the evaluation returns before the reset, so the per-turn record survives. -/
theorem C10_cex : ¬ claimC10 := by
  intro h
  exact absurd (h engineC3w) (by decide)

/-- Claim C10, amended: the per-turn record is cleared at the end of every
evaluation except on the 9-ball round-win path, where the early return
leaves it unchanged (it is cleared again only by the next round's init). -/
theorem C10_amended (e : Engine) :
    (handleTurnEnd e).info = emptyTurnInfo ∨
    ((handleTurnEnd e).roundWinner = some (if e.turn = 1 then 1 else 2) ∧
     (handleTurnEnd e).info = e.info) := by
  unfold handleTurnEnd
  rcases h : turnFoulScan e with ⟨f, balls1, placing1⟩
  cases f with
  | some f => left; rfl
  | none =>
    by_cases hp : e.info.pottedThisTurn = true
    · by_cases hn : e.mode = Mode.nineBall ∧ e.info.nineBallPotted = true
      · right
        constructor
        · simp [hp, hn, endRound]
        · simp [hp, hn, endRound]
      · left; simp [hp, hn]
    · left; simp [hp]

/-! Theorems for claim C1 (8-ball pot of the eight). -/

/-- Counterexample to claim C1 as stated: player 1 (solids) has cleared all
seven solids and legally pots the 8 with a legal first hit, but because the
opponent's stripes are still on the table the source hands the round to
player 2. -/
theorem C1_cex : ¬ claimC1 := by
  intro h
  have h2 := h engineC1 [8] Group.SOLIDS rfl (by decide) (by decide) rfl rfl
  have h4 := h2.mpr (by decide)
  have h5 : (handlePotLogic [8] engineC1).roundWinner = some 2 := by decide
  rw [h5] at h4
  exact absurd h4 (by decide)

/-- Claim C1, amended: when the 8 is potted (and the cue ball is not potted
in the same frame), the shooter wins if and only if *every* object ball
other than the 8 — of either group — is already off the table and the cue
struck some ball this turn; otherwise the opponent is declared the winner.
The shooter's own group being cleared is neither necessary nor sufficient. -/
theorem C1_amended (e : Engine) (ids : List ℕ)
    (hm : e.mode = Mode.eightBall) (h8 : 8 ∈ ids) (h0 : 0 ∉ ids) :
    (handlePotLogic ids e).roundWinner =
      some (if eightWinCond e
            then (if e.turn = 1 then 1 else 2)
            else (if e.turn = 1 then 2 else 1)) := by
  obtain ⟨g2, hg⟩ := assignGroups_eq ids e
  have hball : (∀ b ∈ e.balls, ¬(b.active = true ∧ b.id ≠ 0 ∧ b.id ≠ 8)) ↔
      (∀ b ∈ e.balls, b.active = true → b.id = 0 ∨ b.id = 8) := by
    constructor
    · intro h1 b hb hba
      by_contra hcon
      push_neg at hcon
      exact h1 b hb ⟨hba, hcon.1, hcon.2⟩
    · intro h1 b hb hcon
      rcases h1 b hb hcon.1 with h | h
      · exact hcon.2.1 h
      · exact hcon.2.2 h
  have hwin : ((List.filter (fun b => decide (b.active = true ∧ b.id ≠ 0 ∧ b.id ≠ 8))
        e.balls).length == 0 &&
      (match e.info.firstHitId with | some k => k != 0 | none => false)) = true ↔
      eightWinCond e := by
    rw [Bool.and_eq_true, beq_iff_eq, List.length_eq_zero, List.filter_eq_nil_iff]
    unfold eightWinCond
    simp only [decide_eq_true_eq]
    rw [hball]
    rcases hfh : e.info.firstHitId with _ | k
    · simp
    · simp [bne_iff_ne]
  simp only [handlePotLogic]
  rw [if_neg h0, hg,
    if_pos (show ({ e with groups := g2 } : Engine).mode = Mode.eightBall ∧ 8 ∈ ids
            from ⟨hm, h8⟩)]
  dsimp only [endRound]
  congr 1
  by_cases hw : eightWinCond e
  · rw [if_pos hw, if_pos (hwin.mpr hw)]
  · rw [if_neg hw, if_neg (fun hcon => hw (hwin.mp hcon))]

/-- Witness for the amended C1 at a concrete state where every object ball
including the 8 is down: the shooter wins. -/
theorem C1_witness :
    (handlePotLogic [8] engineC1w).roundWinner =
      some (if eightWinCond engineC1w then (if engineC1w.turn = 1 then 1 else 2)
            else (if engineC1w.turn = 1 then 2 else 1)) :=
  C1_amended engineC1w [8] rfl (by decide) (by decide)

/-! Theorems for claim C2 (9-ball lowest-ball rule). -/

/-- Counterexample to claim C2 as stated: balls 1 and 3 are active at shot
time, the cue strikes ball 1 — the lowest — first, and ball 1 drops; the
source recomputes the lowest ball after the pot and flags a foul anyway. -/
theorem C2_cex : ¬ claimC2 := by
  intro h
  have h2 := h engineC2 preC2 [1] ⟨0, 200, 200, 0, 0, true, BallKind.CUE⟩ 1
    rfl rfl rfl rfl rfl rfl
  exact (h2.mp (by decide)) (by decide)

/-- Claim C2, amended: the 9-ball first-contact rule is judged against the
lowest-numbered ball still active at *settle* time (after this turn's pots),
not at shot time: a mismatch gives the `notLowest` foul, passes the turn and
enters placement mode without ending the round, and a match gives no foul. -/
theorem C2_amended (e : Engine) (c : Ball) (k : ℕ)
    (hm : e.mode = Mode.nineBall)
    (hc : e.balls.find? (fun b => b.id == 0) = some c) (ha : c.active = true)
    (hf : e.info.firstHitId = some k) :
    (k ≠ lowestActiveId e.balls →
      (handleTurnEnd e).foul = some Foul.notLowest ∧
      (handleTurnEnd e).turn = otherTurn e.turn ∧
      (handleTurnEnd e).placing = true ∧
      (handleTurnEnd e).roundWinner = e.roundWinner) ∧
    (k = lowestActiveId e.balls → (handleTurnEnd e).foul = e.foul) := by
  have hscan := turnFoulScan_nine e c k hm hc ha hf
  constructor
  · intro hk
    rw [if_neg hk] at hscan
    unfold handleTurnEnd
    rw [hscan]
    exact ⟨rfl, rfl, rfl, rfl⟩
  · intro hk
    rw [if_pos hk] at hscan
    unfold handleTurnEnd
    rw [hscan]
    by_cases hp : e.info.pottedThisTurn = true
    · by_cases hn : e.mode = Mode.nineBall ∧ e.info.nineBallPotted = true
      · simp [hp, hn, endRound]
      · simp [hp, hn]
    · simp [hp]

/-- Witness for the amended C2: ball 3 struck first while ball 1 is still
the lowest active ball gives the `notLowest` foul. -/
theorem C2_witness :
    (handleTurnEnd engineC2w).foul = some Foul.notLowest ∧
    (handleTurnEnd engineC2w).turn = otherTurn engineC2w.turn ∧
    (handleTurnEnd engineC2w).placing = true ∧
    (handleTurnEnd engineC2w).roundWinner = engineC2w.roundWinner :=
  (C2_amended engineC2w ⟨0, 200, 200, 0, 0, true, BallKind.CUE⟩ 3
    rfl rfl rfl rfl).1 (by decide)

/-! Theorems for claim C3 (9-ball pot of the nine wins). -/

/-- Counterexample to claim C3 as stated: only the 9 is on the table, the
cue legally strikes it first — it is the lowest ball at shot time — and
pots it, yet the source flags the `notLowest` foul (the lowest is
recomputed after the pot) and nobody wins the round. -/
theorem C3_cex : ¬ claimC3 := by
  intro h
  have h2 := h engineC3 preC3 [9] ⟨0, 200, 200, 0, 0, true, BallKind.CUE⟩ 9
    rfl rfl rfl rfl rfl rfl rfl (by decide) (by decide) (by decide)
  exact absurd h2 (by decide)

/-- Claim C3, amended: if the 9 was potted this turn and the turn is
foul-free by the source's own tests — in particular the recorded first hit
equals the lowest ball active at settle time — then the shooter immediately
wins the round, regardless of the pocketing order of the other balls. -/
theorem C3_amended (e : Engine) (c : Ball)
    (hm : e.mode = Mode.nineBall)
    (hc : e.balls.find? (fun b => b.id == 0) = some c) (ha : c.active = true)
    (hp : e.info.pottedThisTurn = true) (hn : e.info.nineBallPotted = true)
    (hf : e.info.firstHitId = some (lowestActiveId e.balls)) :
    (handleTurnEnd e).roundWinner = some (if e.turn = 1 then 1 else 2) := by
  have hscan := turnFoulScan_nine e c (lowestActiveId e.balls) hm hc ha hf
  rw [if_pos rfl] at hscan
  unfold handleTurnEnd
  rw [hscan]
  simp [hp, hm, hn, endRound]

/-- Witness for the amended C3: ball 1 struck first and still the lowest at
settle, the 9 pocketed off the carom: immediate round win for the shooter. -/
theorem C3_witness : (handleTurnEnd engineC3w).roundWinner = some 1 := by
  have h2 := C3_amended engineC3w ⟨0, 200, 200, 0, 0, true, BallKind.CUE⟩
    rfl rfl rfl rfl rfl rfl
  simpa using h2

/-! Theorems for claim C8 (cue-ball placement). -/

/-- Claim C8, confirmed: a placement attempt is accepted exactly when the
point is inside the table inset by one radius and at squared distance at
least `(2r)²` (i.e. distance at least two radii) from every active object
ball; a rejected attempt changes nothing. -/
theorem C8_place (e : Engine) (px py : ℝ) :
    ((placeCueBall e px py).2 = true ↔
      (BALL_RADIUS ≤ px ∧ px ≤ TABLE_WIDTH - BALL_RADIUS ∧
       BALL_RADIUS ≤ py ∧ py ≤ TABLE_HEIGHT - BALL_RADIUS) ∧
      (∀ b ∈ e.balls, b.id ≠ 0 → b.active = true →
        (BALL_RADIUS * 2) ^ 2 ≤ (b.x - px) ^ 2 + (b.y - py) ^ 2)) ∧
    ((placeCueBall e px py).2 = false → (placeCueBall e px py).1 = e) := by
  have hiff : (¬ ∃ b ∈ e.balls, b.id ≠ 0 ∧ b.active = true ∧
      (b.x - px) ^ 2 + (b.y - py) ^ 2 < (BALL_RADIUS * 2) ^ 2) ↔
      (∀ b ∈ e.balls, b.id ≠ 0 → b.active = true →
        (BALL_RADIUS * 2) ^ 2 ≤ (b.x - px) ^ 2 + (b.y - py) ^ 2) := by
    push_neg
    rfl
  simp only [placeCueBall]
  by_cases hv : (BALL_RADIUS ≤ px ∧ px ≤ TABLE_WIDTH - BALL_RADIUS ∧
      BALL_RADIUS ≤ py ∧ py ≤ TABLE_HEIGHT - BALL_RADIUS) ∧
      ¬ ∃ b ∈ e.balls, b.id ≠ 0 ∧ b.active = true ∧
        (b.x - px) ^ 2 + (b.y - py) ^ 2 < (BALL_RADIUS * 2) ^ 2
  · rw [if_pos hv]
    exact ⟨⟨fun _ => ⟨hv.1, hiff.mp hv.2⟩, fun _ => rfl⟩,
      fun hcon => Bool.noConfusion hcon⟩
  · rw [if_neg hv]
    refine ⟨⟨fun hcon => Bool.noConfusion hcon,
      fun hrhs => absurd ⟨hrhs.1, hiff.mpr hrhs.2⟩ hv⟩, fun _ => rfl⟩

/-- Witness for C8: a placement attempt at (310, 200), overlapping the
active ball 5 at (300, 200), is rejected and the state is unchanged. -/
theorem C8_place_witness :
    (placeCueBall engineC8 310 200).2 = false ∧
    (placeCueBall engineC8 310 200).1 = engineC8 := by
  have h := C8_place engineC8 310 200
  have h2 : (placeCueBall engineC8 310 200).2 = false := by
    cases hb : (placeCueBall engineC8 310 200).2 with
    | false => rfl
    | true =>
      exfalso
      have h3 := (h.1.mp hb).2 ⟨5, 300, 200, 0, 0, true, BallKind.SOLID⟩
        (by simp [engineC8]) (by norm_num) rfl
      norm_num [BALL_RADIUS] at h3
  exact ⟨h2, h.2 h2⟩

/-! Theorems for claim C7 (first-contact record). -/

/-- Claim C7, confirmed: the first overlap the collision loop processes
between the cue ball and an (active) object ball while the record is empty
sets `firstHitId` to that ball's id (whichever side of the pair the cue is
on), and once `firstHitId` is non-`none` it is preserved by every further
collision step, sub-step and frame until the turn-end reset. -/
theorem C7_firstHit :
    (∀ (ph : Phys) (i j : ℕ) (b1 b2 : Ball),
      ph.balls[i]? = some b1 → ph.balls[j]? = some b2 →
      b1.active = true → b2.active = true →
      (b2.x - b1.x) * (b2.x - b1.x) + (b2.y - b1.y) * (b2.y - b1.y) <
        (BALL_RADIUS * 2) ^ 2 →
      ph.info.firstHitId = none →
      (b1.id = 0 → (collideAt false ph (i, j)).info.firstHitId = some b2.id) ∧
      (b2.id = 0 → b1.id ≠ 0 →
        (collideAt false ph (i, j)).info.firstHitId = some b1.id)) ∧
    (∀ (placing : Bool) (n : ℕ) (ph : Phys) (k : ℕ),
      ph.info.firstHitId = some k →
      ((subStep placing)^[n] ph).info.firstHitId = some k) := by
  have hcollide : ∀ (placing : Bool) (ph : Phys) (ij : ℕ × ℕ) (k : ℕ),
      ph.info.firstHitId = some k →
      (collideAt placing ph ij).info.firstHitId = some k := by
    intro placing ph ij k hk
    unfold collideAt
    rcases h1 : ph.balls[ij.1]? with _ | b1
    · exact hk
    · rcases h2 : ph.balls[ij.2]? with _ | b2
      · exact hk
      · dsimp only
        split_ifs <;> simp_all
  have hfold : ∀ (placing : Bool) (l : List (ℕ × ℕ)) (ph : Phys) (k : ℕ),
      ph.info.firstHitId = some k →
      ((l.foldl (collideAt placing) ph)).info.firstHitId = some k := by
    intro placing l
    induction l with
    | nil => intro ph k hk; exact hk
    | cons ij rest ih =>
      intro ph k hk
      exact ih _ _ (hcollide placing ph ij k hk)
  have hstep : ∀ (placing : Bool) (ph : Phys) (k : ℕ),
      ph.info.firstHitId = some k →
      (subStep placing ph).info.firstHitId = some k := by
    intro placing ph k hk
    unfold subStep phase2
    exact hfold placing _ _ k (by simpa [phase1] using hk)
  constructor
  · intro ph i j b1 b2 h1 h2 hb1 hb2 hd2 hnone
    constructor
    · intro hcue
      unfold collideAt
      rw [h1, h2]
      dsimp only
      rw [if_neg (by simp [hb1, hb2])]
      rw [if_pos hd2]
      simp [hcue, hnone]
    · intro hcue hnot
      unfold collideAt
      rw [h1, h2]
      dsimp only
      rw [if_neg (by simp [hb1, hb2])]
      rw [if_pos hd2]
      simp [hcue, hnot, hnone]
  · intro placing n
    induction n with
    | zero => intro ph k hk; exact hk
    | succ n ih =>
      intro ph k hk
      rw [Function.iterate_succ_apply]
      exact ih _ k (hstep placing ph k hk)

/-- Witness for C7: a recorded first hit (ball 3) survives two further
frames' worth of sub-steps, and a cue-ball overlap with ball 7 sets the
record to 7. -/
theorem C7_firstHit_witness :
    ((subStep false)^[16] physC7).info.firstHitId = some 3 ∧
    (collideAt false physC7b (0, 1)).info.firstHitId = some 7 := by
  constructor
  · exact C7_firstHit.2 false 16 physC7 3 rfl
  · exact (C7_firstHit.1 physC7b 0 1 ⟨0, 300, 200, 2, 0, true, BallKind.CUE⟩
      ⟨7, 320, 200, 0, 0, true, BallKind.SOLID⟩ rfl rfl rfl rfl
      (by norm_num [BALL_RADIUS]) rfl).1 rfl

/-! Theorems for claim C6 (collision restitution). -/

/-- Counterexample to claim C6 as stated: the engine also "resolves" an
overlapping pair whose relative normal velocity is zero (e.g. two touching
balls at rest, as produced by chained position corrections); there the
post-collision magnitude equals the pre-collision magnitude (both zero), so
the decrease is not strict. -/
theorem C6_cex : ¬ claimC6 := by
  intro h
  have h2 := h ⟨1, 100, 200, 0, 0, true, BallKind.SOLID⟩
    ⟨2, 123, 200, 0, 0, true, BallKind.SOLID⟩
    rfl rfl (by norm_num [dist2]) (by norm_num [dist2, BALL_RADIUS])
  have hpre : relNormalVel ⟨1, 100, 200, 0, 0, true, BallKind.SOLID⟩
      ⟨2, 123, 200, 0, 0, true, BallKind.SOLID⟩ = 0 := by
    simp [relNormalVel]
  have hpost : postRelNormalVel ⟨1, 100, 200, 0, 0, true, BallKind.SOLID⟩
      ⟨2, 123, 200, 0, 0, true, BallKind.SOLID⟩ = 0 := by
    simp only [postRelNormalVel, resolvePair]
    ring
  rw [hpre, hpost] at h2
  simp at h2

/-- Claim C6, amended: for every resolved pair with distinct centers, the
post-collision relative normal velocity is exactly `-0.92` times the
pre-collision one; its magnitude therefore *strictly* decreases whenever the
pre-collision relative normal velocity is nonzero, and is unchanged (zero)
when it is zero. -/
theorem C6_amended (b1 b2 : Ball) (hpos : 0 < dist2 b1 b2) :
    postRelNormalVel b1 b2 = -(BALL_RESTITUTION * relNormalVel b1 b2) ∧
    (relNormalVel b1 b2 ≠ 0 →
      |postRelNormalVel b1 b2| < |relNormalVel b1 b2|) := by
  have hd2 : 0 < (b2.x - b1.x) * (b2.x - b1.x) + (b2.y - b1.y) * (b2.y - b1.y) := by
    unfold dist2 at hpos
    nlinarith [hpos]
  set dx := b2.x - b1.x with hdx
  set dy := b2.y - b1.y with hdy
  have hdpos : 0 < Real.sqrt (dx * dx + dy * dy) := Real.sqrt_pos.mpr hd2
  have hdsq : Real.sqrt (dx * dx + dy * dy) * Real.sqrt (dx * dx + dy * dy) =
      dx * dx + dy * dy := Real.mul_self_sqrt hd2.le
  set d := Real.sqrt (dx * dx + dy * dy) with hd
  have hdne : d ≠ 0 := ne_of_gt hdpos
  have hnn : dx / d * (dx / d) + dy / d * (dy / d) = 1 := by
    field_simp
    linarith [hdsq]
  have key : postRelNormalVel b1 b2 =
      BALL_RESTITUTION * ((b1.vx * (dx / d) + b1.vy * (dy / d)) -
        (b2.vx * (dx / d) + b2.vy * (dy / d))) *
        (dx / d * (dx / d) + dy / d * (dy / d)) := by
    simp only [postRelNormalVel, resolvePair]
    rw [← hdx, ← hdy, ← hd]
    ring
  have key2 : relNormalVel b1 b2 =
      (b2.vx - b1.vx) * (dx / d) + (b2.vy - b1.vy) * (dy / d) := by
    simp only [relNormalVel]
  have heq : postRelNormalVel b1 b2 = -(BALL_RESTITUTION * relNormalVel b1 b2) := by
    rw [key, key2, hnn]
    ring
  refine ⟨heq, fun hne => ?_⟩
  rw [heq, abs_neg, abs_mul]
  have habs : 0 < |relNormalVel b1 b2| := abs_pos.mpr hne
  have hr : |BALL_RESTITUTION| < 1 := by rw [abs_of_pos] <;> norm_num [BALL_RESTITUTION]
  calc |BALL_RESTITUTION| * |relNormalVel b1 b2|
      < 1 * |relNormalVel b1 b2| := by exact mul_lt_mul_of_pos_right hr habs
    _ = |relNormalVel b1 b2| := one_mul _

/-- Witness for the amended C6 at a concrete head-on overlap with nonzero
approach speed. -/
theorem C6_amended_witness :
    postRelNormalVel ⟨1, 100, 200, 1, 0, true, BallKind.SOLID⟩
        ⟨2, 123, 200, 0, 0, true, BallKind.SOLID⟩ =
      -(BALL_RESTITUTION * relNormalVel ⟨1, 100, 200, 1, 0, true, BallKind.SOLID⟩
        ⟨2, 123, 200, 0, 0, true, BallKind.SOLID⟩) ∧
    (relNormalVel ⟨1, 100, 200, 1, 0, true, BallKind.SOLID⟩
        ⟨2, 123, 200, 0, 0, true, BallKind.SOLID⟩ ≠ 0 →
      |postRelNormalVel ⟨1, 100, 200, 1, 0, true, BallKind.SOLID⟩
          ⟨2, 123, 200, 0, 0, true, BallKind.SOLID⟩| <
        |relNormalVel ⟨1, 100, 200, 1, 0, true, BallKind.SOLID⟩
          ⟨2, 123, 200, 0, 0, true, BallKind.SOLID⟩|) :=
  C6_amended ⟨1, 100, 200, 1, 0, true, BallKind.SOLID⟩
    ⟨2, 123, 200, 0, 0, true, BallKind.SOLID⟩ (by norm_num [dist2])

/-! Theorems for claim C9 (racking). -/

lemma rackDist_bounds : 0.5 ≤ rackDist ∧ rackDist < 21.5 := by
  unfold rackDist
  constructor
  · have := Real.sqrt_nonneg ((2 * BALL_RADIUS) ^ 2 - BALL_RADIUS ^ 2)
    linarith
  · have h1 : Real.sqrt ((2 * BALL_RADIUS) ^ 2 - BALL_RADIUS ^ 2) < 21 := by
      rw [show ((2 * BALL_RADIUS) ^ 2 - BALL_RADIUS ^ 2 : ℝ) = 432 by
        norm_num [BALL_RADIUS]]
      rw [show (21 : ℝ) = Real.sqrt (21 ^ 2) from (Real.sqrt_sq (by norm_num)).symm]
      exact Real.sqrt_lt_sqrt (by norm_num) (by norm_num)
    linarith

lemma rackedBall8_bounds (j : ℕ → ℝ × ℝ) (hj : validJitter j) (id c r len : ℕ)
    (hc : (c : ℝ) ≤ 4) (hr : (r : ℝ) ≤ (len : ℝ) - 1) (hlen : (len : ℝ) ≤ 5) :
    ballInBounds (rackedBall8 j id c r len) := by
  obtain ⟨hd0, hd1⟩ := rackDist_bounds
  obtain ⟨hx0, hx1, hy0, hy1⟩ := hj id
  have hc0 : (0 : ℝ) ≤ (c : ℝ) := Nat.cast_nonneg c
  have hr0 : (0 : ℝ) ≤ (r : ℝ) := Nat.cast_nonneg r
  have hcr0 : 0 ≤ (c : ℝ) * rackDist := mul_nonneg hc0 (by linarith)
  have hcr1 : (c : ℝ) * rackDist ≤ 86 := by nlinarith
  unfold ballInBounds rackedBall8 BALL_RADIUS TABLE_WIDTH TABLE_HEIGHT
  refine ⟨by norm_num; nlinarith, by norm_num; nlinarith,
    by norm_num; nlinarith, by norm_num; nlinarith⟩

lemma rackedBall9_bounds (j : ℕ → ℝ × ℝ) (hj : validJitter j) (id c : ℕ) (rr : ℝ)
    (hc : (c : ℝ) ≤ 4) (hr1 : -1 ≤ rr) (hr2 : rr ≤ 1) :
    ballInBounds (rackedBall9 j id c rr) := by
  obtain ⟨hd0, hd1⟩ := rackDist_bounds
  obtain ⟨hx0, hx1, hy0, hy1⟩ := hj id
  have hc0 : (0 : ℝ) ≤ (c : ℝ) := Nat.cast_nonneg c
  have hcr0 : 0 ≤ (c : ℝ) * rackDist := mul_nonneg hc0 (by linarith)
  have hcr1 : (c : ℝ) * rackDist ≤ 86 := by nlinarith
  unfold ballInBounds rackedBall9 BALL_RADIUS TABLE_WIDTH TABLE_HEIGHT
  refine ⟨by norm_num; nlinarith, by norm_num; nlinarith,
    by norm_num; nlinarith, by norm_num; nlinarith⟩

/-- Counterexample to claim C9 as stated: with ball 2 jittered 0.09 towards
ball 9 (and no other jitter), the two same-column neighbours of the 8-ball
rack end up 23.91 < 24 apart: racking can place two balls overlapping. -/
theorem C9_cex : ¬ claimC9 := by
  intro h
  have hvalid : validJitter jitterC9 := by
    intro i
    unfold jitterC9
    by_cases hi : i = 2 <;> simp [hi] <;> norm_num
  have hp := (h jitterC9 hvalid).1.1
  rw [initRound8] at hp
  have h2 := ((List.pairwise_cons.mp
      ((List.pairwise_cons.mp ((List.pairwise_cons.mp hp).2)).2)).1)
    (rackedBall8 jitterC9 9 1 1 2) (by simp)
  unfold dist2 rackedBall8 jitterC9 at h2
  norm_num [BALL_RADIUS, TABLE_HEIGHT] at h2

/-- Claim C9, amended: racking never places a ball outside the table, in
either variant; but it does not guarantee non-overlap — same-column
neighbours can end up closer than two radii by up to the 0.1 jitter. -/
theorem C9_amended (j : ℕ → ℝ × ℝ) (hj : validJitter j) :
    (∀ b ∈ initRound8 j, ballInBounds b) ∧ (∀ b ∈ initRound9 j, ballInBounds b) := by
  have hcue : ballInBounds cueBallInit := by
    unfold ballInBounds cueBallInit BALL_RADIUS TABLE_WIDTH TABLE_HEIGHT
    norm_num
  constructor
  · intro b hb
    simp only [initRound8, List.mem_cons, List.not_mem_nil, or_false] at hb
    rcases hb with rfl | rfl | rfl | rfl | rfl | rfl | rfl | rfl | rfl | rfl | rfl |
      rfl | rfl | rfl | rfl | rfl
    · exact hcue
    · exact rackedBall8_bounds j hj 1 0 0 1 (by norm_num) (by norm_num) (by norm_num)
    · exact rackedBall8_bounds j hj 2 1 0 2 (by norm_num) (by norm_num) (by norm_num)
    · exact rackedBall8_bounds j hj 9 1 1 2 (by norm_num) (by norm_num) (by norm_num)
    · exact rackedBall8_bounds j hj 3 2 0 3 (by norm_num) (by norm_num) (by norm_num)
    · exact rackedBall8_bounds j hj 8 2 1 3 (by norm_num) (by norm_num) (by norm_num)
    · exact rackedBall8_bounds j hj 10 2 2 3 (by norm_num) (by norm_num) (by norm_num)
    · exact rackedBall8_bounds j hj 4 3 0 4 (by norm_num) (by norm_num) (by norm_num)
    · exact rackedBall8_bounds j hj 15 3 1 4 (by norm_num) (by norm_num) (by norm_num)
    · exact rackedBall8_bounds j hj 12 3 2 4 (by norm_num) (by norm_num) (by norm_num)
    · exact rackedBall8_bounds j hj 5 3 3 4 (by norm_num) (by norm_num) (by norm_num)
    · exact rackedBall8_bounds j hj 6 4 0 5 (by norm_num) (by norm_num) (by norm_num)
    · exact rackedBall8_bounds j hj 7 4 1 5 (by norm_num) (by norm_num) (by norm_num)
    · exact rackedBall8_bounds j hj 13 4 2 5 (by norm_num) (by norm_num) (by norm_num)
    · exact rackedBall8_bounds j hj 14 4 3 5 (by norm_num) (by norm_num) (by norm_num)
    · exact rackedBall8_bounds j hj 11 4 4 5 (by norm_num) (by norm_num) (by norm_num)
  · intro b hb
    simp only [initRound9, List.mem_cons, List.not_mem_nil, or_false] at hb
    rcases hb with rfl | rfl | rfl | rfl | rfl | rfl | rfl | rfl | rfl | rfl
    · exact hcue
    · exact rackedBall9_bounds j hj 1 0 0 (by norm_num) (by norm_num) (by norm_num)
    · exact rackedBall9_bounds j hj 2 1 (-0.5) (by norm_num) (by norm_num) (by norm_num)
    · exact rackedBall9_bounds j hj 3 1 0.5 (by norm_num) (by norm_num) (by norm_num)
    · exact rackedBall9_bounds j hj 9 2 0 (by norm_num) (by norm_num) (by norm_num)
    · exact rackedBall9_bounds j hj 5 2 (-1) (by norm_num) (by norm_num) (by norm_num)
    · exact rackedBall9_bounds j hj 6 2 1 (by norm_num) (by norm_num) (by norm_num)
    · exact rackedBall9_bounds j hj 7 3 (-0.5) (by norm_num) (by norm_num) (by norm_num)
    · exact rackedBall9_bounds j hj 8 3 0.5 (by norm_num) (by norm_num) (by norm_num)
    · exact rackedBall9_bounds j hj 4 4 0 (by norm_num) (by norm_num) (by norm_num)

/-- Witness for the amended C9 at the zero-jitter outcome. -/
theorem C9_amended_witness :
    (∀ b ∈ initRound8 (fun _ => ((0 : ℝ), (0 : ℝ))), ballInBounds b) ∧
    (∀ b ∈ initRound9 (fun _ => ((0 : ℝ), (0 : ℝ))), ballInBounds b) :=
  C9_amended (fun _ => ((0 : ℝ), (0 : ℝ)))
    (fun _ => ⟨le_rfl, by norm_num, le_rfl, by norm_num⟩)

/-! Theorems for claim C5 (settled balls stay in bounds). -/

lemma sqrt00 : Real.sqrt ((0:ℝ) * 0 + 0 * 0) = 0 := by
  rw [show ((0:ℝ) * 0 + 0 * 0) = 0 by norm_num, Real.sqrt_zero]

lemma noPocketMid (x y : ℝ) (hx1 : 11 ≤ x) (hx2 : x ≤ 37)
    (hy1 : 190 ≤ y) (hy2 : y ≤ 210) :
    ¬ ∃ p ∈ POCKETS, (x - p.1) ^ 2 + (y - p.2) ^ 2 < (POCKET_RADIUS * 1.2) ^ 2 := by
  unfold POCKETS POCKET_RADIUS TABLE_WIDTH TABLE_HEIGHT
  push_neg
  intro p hp
  simp only [List.mem_cons, List.not_mem_nil, or_false] at hp
  rcases hp with rfl | rfl | rfl | rfl | rfl | rfl <;> norm_num <;> nlinarith

lemma moveBall_clampB (v : ℝ) (h1 : 0 < v) (h2 : v ≤ 1/400) :
    moveBall false (cexBallB v) = (⟨1, 12, 200, 0, 0, true, BallKind.SOLID⟩, false, false) := by
  unfold moveBall cexBallB
  rw [if_neg (by simp)]
  dsimp only
  rw [sqrt00]
  rw [if_neg (lt_irrefl 0)]
  rw [if_pos (show 12 - v + 0 / (SUB_STEPS:ℝ) < BALL_RADIUS by
    unfold BALL_RADIUS SUB_STEPS; push_cast; linarith)]
  rw [if_neg (show ¬ (TABLE_WIDTH - BALL_RADIUS < BALL_RADIUS) by
    unfold BALL_RADIUS TABLE_WIDTH; norm_num)]
  rw [if_neg (show ¬ ((200:ℝ) + 0 / (SUB_STEPS:ℝ) < BALL_RADIUS) by
    unfold BALL_RADIUS SUB_STEPS; norm_num)]
  rw [if_neg (show ¬ (TABLE_HEIGHT - BALL_RADIUS < (200:ℝ) + 0 / (SUB_STEPS:ℝ)) by
    unfold BALL_RADIUS TABLE_HEIGHT SUB_STEPS; norm_num)]
  dsimp only
  rw [if_neg (noPocketMid BALL_RADIUS (200 + 0 / (SUB_STEPS:ℝ))
    (by unfold BALL_RADIUS; norm_num) (by unfold BALL_RADIUS; norm_num)
    (by unfold SUB_STEPS; norm_num) (by unfold SUB_STEPS; norm_num))]
  simp only [abs_zero, Prod.mk.injEq, Ball.mk.injEq]
  norm_num [WALL_BOUNCE, BALL_RADIUS, SUB_STEPS]



lemma moveBall_restA (v : ℝ) (h1 : 0 ≤ v) (h2 : v ≤ 1/100) :
    moveBall false (cexBallA v) = (cexBallA v, false, false) := by
  unfold moveBall cexBallA
  rw [if_neg (by simp)]
  dsimp only
  rw [sqrt00]
  rw [if_neg (lt_irrefl 0)]
  rw [if_neg (show ¬(36 - v + 0 / (SUB_STEPS:ℝ) < BALL_RADIUS) by
    unfold BALL_RADIUS SUB_STEPS; push_cast; linarith)]
  rw [if_neg (show ¬(TABLE_WIDTH - BALL_RADIUS < 36 - v + 0 / (SUB_STEPS:ℝ)) by
    unfold BALL_RADIUS TABLE_WIDTH SUB_STEPS; push_cast; linarith)]
  rw [if_neg (show ¬((200:ℝ) + 0 / (SUB_STEPS:ℝ) < BALL_RADIUS) by
    unfold BALL_RADIUS SUB_STEPS; norm_num)]
  rw [if_neg (show ¬(TABLE_HEIGHT - BALL_RADIUS < (200:ℝ) + 0 / (SUB_STEPS:ℝ)) by
    unfold BALL_RADIUS TABLE_HEIGHT SUB_STEPS; norm_num)]
  dsimp only
  rw [if_neg (noPocketMid (36 - v + 0 / (SUB_STEPS:ℝ)) (200 + 0 / (SUB_STEPS:ℝ))
    (by unfold SUB_STEPS; push_cast; linarith) (by unfold SUB_STEPS; push_cast; linarith)
    (by unfold SUB_STEPS; norm_num) (by unfold SUB_STEPS; norm_num))]
  simp only [Prod.mk.injEq, Ball.mk.injEq]
  norm_num [SUB_STEPS]

lemma moveBall_startB :
    moveBall false (⟨1, 12, 200, 0, 0, true, BallKind.SOLID⟩ : Ball) =
      (⟨1, 12, 200, 0, 0, true, BallKind.SOLID⟩, false, false) := by
  unfold moveBall
  rw [if_neg (by simp)]
  dsimp only
  rw [sqrt00]
  rw [if_neg (lt_irrefl 0)]
  rw [if_neg (show ¬((12:ℝ) + 0 / (SUB_STEPS:ℝ) < BALL_RADIUS) by
    unfold BALL_RADIUS SUB_STEPS; norm_num)]
  rw [if_neg (show ¬(TABLE_WIDTH - BALL_RADIUS < (12:ℝ) + 0 / (SUB_STEPS:ℝ)) by
    unfold BALL_RADIUS TABLE_WIDTH SUB_STEPS; norm_num)]
  rw [if_neg (show ¬((200:ℝ) + 0 / (SUB_STEPS:ℝ) < BALL_RADIUS) by
    unfold BALL_RADIUS SUB_STEPS; norm_num)]
  rw [if_neg (show ¬(TABLE_HEIGHT - BALL_RADIUS < (200:ℝ) + 0 / (SUB_STEPS:ℝ)) by
    unfold BALL_RADIUS TABLE_HEIGHT SUB_STEPS; norm_num)]
  dsimp only
  rw [if_neg (noPocketMid ((12:ℝ) + 0 / (SUB_STEPS:ℝ)) (200 + 0 / (SUB_STEPS:ℝ))
    (by unfold SUB_STEPS; norm_num) (by unfold SUB_STEPS; norm_num)
    (by unfold SUB_STEPS; norm_num) (by unfold SUB_STEPS; norm_num))]
  simp only [Prod.mk.injEq, Ball.mk.injEq]
  norm_num [SUB_STEPS]

lemma moveBall_startA :
    moveBall false (⟨2, 36.005, 200, -0.08, 0, true, BallKind.SOLID⟩ : Ball) =
      (⟨2, 36 - 1/200, 200, 0, 0, true, BallKind.SOLID⟩, false, false) := by
  unfold moveBall
  rw [if_neg (by simp)]
  dsimp only
  rw [show ((-0.08:ℝ) * -0.08 + 0 * 0) = (0.08:ℝ)^2 by norm_num,
    Real.sqrt_sq (by norm_num : (0:ℝ) ≤ 0.08)]
  rw [if_pos (by norm_num : (0:ℝ) < 0.08)]
  rw [if_pos (show max 0 ((0.08:ℝ) - DECELERATION / (SUB_STEPS:ℝ)) < STOP_THRESHOLD by
    rw [max_lt_iff]
    constructor <;> norm_num [DECELERATION, SUB_STEPS, STOP_THRESHOLD])]
  rw [if_neg (show ¬((36.005:ℝ) + -0.08 / (SUB_STEPS:ℝ) < BALL_RADIUS) by
    unfold BALL_RADIUS SUB_STEPS; norm_num)]
  rw [if_neg (show ¬(TABLE_WIDTH - BALL_RADIUS < (36.005:ℝ) + -0.08 / (SUB_STEPS:ℝ)) by
    unfold BALL_RADIUS TABLE_WIDTH SUB_STEPS; norm_num)]
  rw [if_neg (show ¬((200:ℝ) + 0 / (SUB_STEPS:ℝ) < BALL_RADIUS) by
    unfold BALL_RADIUS SUB_STEPS; norm_num)]
  rw [if_neg (show ¬(TABLE_HEIGHT - BALL_RADIUS < (200:ℝ) + 0 / (SUB_STEPS:ℝ)) by
    unfold BALL_RADIUS TABLE_HEIGHT SUB_STEPS; norm_num)]
  dsimp only
  rw [if_neg (noPocketMid ((36.005:ℝ) + -0.08 / (SUB_STEPS:ℝ)) (200 + 0 / (SUB_STEPS:ℝ))
    (by unfold SUB_STEPS; norm_num) (by unfold SUB_STEPS; norm_num)
    (by unfold SUB_STEPS; norm_num) (by unfold SUB_STEPS; norm_num))]
  simp only [Prod.mk.injEq, Ball.mk.injEq]
  norm_num [SUB_STEPS]


lemma phase1_cex (v : ℝ) (h1 : 0 < v) (h2 : v ≤ 1/400) :
    phase1 false (cexPhys v) =
      ⟨[⟨1, 12, 200, 0, 0, true, BallKind.SOLID⟩, cexBallA v], emptyTurnInfo, false, []⟩ := by
  unfold phase1 cexPhys
  rw [show List.map (moveBall false) [cexBallB v, cexBallA v] =
    [(⟨1, 12, 200, 0, 0, true, BallKind.SOLID⟩, false, false), (cexBallA v, false, false)] from by
    rw [List.map_cons, List.map_cons, List.map_nil,
      moveBall_clampB v h1 h2, moveBall_restA v h1.le (by linarith)]]
  simp [emptyTurnInfo]

lemma collideAt_cex (w : ℝ) (hw1 : 0 < w) (hw2 : w ≤ 1/100) :
    collideAt false ⟨[⟨1, 12, 200, 0, 0, true, BallKind.SOLID⟩, cexBallA w],
        emptyTurnInfo, false, []⟩ (0, 1) = cexPhys (w/2) := by
  have hd : Real.sqrt ((36 - w - 12) * (36 - w - 12) + ((200:ℝ) - 200) * (200 - 200)) = 24 - w := by
    rw [show ((36 - w - 12) * (36 - w - 12) + ((200:ℝ) - 200) * (200 - 200)) = (24 - w)^2 by ring]
    exact Real.sqrt_sq (by linarith)
  have h24 : (24:ℝ) - w ≠ 0 := by
    intro hcon
    linarith [hcon]
  have hset : ∀ (a b x y : Ball), (([a, b] : List Ball).set 0 x).set 1 y = [x, y] :=
    fun a b x y => rfl
  unfold collideAt cexBallA
  dsimp only
  rw [show ([(⟨1, 12, 200, 0, 0, true, BallKind.SOLID⟩ : Ball),
      ⟨2, 36 - w, 200, 0, 0, true, BallKind.SOLID⟩] : List Ball)[(0:ℕ)]? =
      some ⟨1, 12, 200, 0, 0, true, BallKind.SOLID⟩ from rfl]
  rw [show ([(⟨1, 12, 200, 0, 0, true, BallKind.SOLID⟩ : Ball),
      ⟨2, 36 - w, 200, 0, 0, true, BallKind.SOLID⟩] : List Ball)[(1:ℕ)]? =
      some ⟨2, 36 - w, 200, 0, 0, true, BallKind.SOLID⟩ from rfl]
  dsimp only
  rw [if_neg (by simp)]
  rw [if_pos (show ((36 - w - 12) * (36 - w - 12) + ((200:ℝ) - 200) * (200 - 200)) <
    (BALL_RADIUS * 2) ^ 2 by unfold BALL_RADIUS; nlinarith)]
  unfold resolvePair
  dsimp only
  rw [hd]
  rw [if_neg (by simp), if_neg (by simp)]
  rw [hset]
  unfold cexPhys cexBallB cexBallA emptyTurnInfo
  simp only [Phys.mk.injEq, List.cons.injEq, Ball.mk.injEq, and_true, true_and]
  norm_num [BALL_RADIUS]
  repeat' apply And.intro
  all_goals field_simp
  all_goals ring

lemma subStep_cex (v : ℝ) (h1 : 0 < v) (h2 : v ≤ 1/400) :
    subStep false (cexPhys v) = cexPhys (v/2) := by
  unfold subStep
  rw [phase1_cex v h1 h2]
  unfold phase2
  rw [show pairIndices (([(⟨1, 12, 200, 0, 0, true, BallKind.SOLID⟩ : Ball),
    cexBallA v] : List Ball)).length = [((0:ℕ), (1:ℕ))] from rfl]
  rw [List.foldl_cons, List.foldl_nil]
  exact collideAt_cex v h1 (by linarith)

lemma subStep_start :
    subStep false ⟨cexStartBalls, emptyTurnInfo, false, []⟩ = cexPhys (1/400) := by
  unfold subStep cexStartBalls
  have hphase : phase1 false ⟨[⟨1, 12, 200, 0, 0, true, BallKind.SOLID⟩,
      ⟨2, 36.005, 200, -0.08, 0, true, BallKind.SOLID⟩], emptyTurnInfo, false, []⟩ =
      ⟨[⟨1, 12, 200, 0, 0, true, BallKind.SOLID⟩,
        ⟨2, 36 - 1/200, 200, 0, 0, true, BallKind.SOLID⟩], emptyTurnInfo, false, []⟩ := by
    unfold phase1
    rw [show List.map (moveBall false) [(⟨1, 12, 200, 0, 0, true, BallKind.SOLID⟩ : Ball),
        ⟨2, 36.005, 200, -0.08, 0, true, BallKind.SOLID⟩] =
      [((⟨1, 12, 200, 0, 0, true, BallKind.SOLID⟩ : Ball), false, false),
       ((⟨2, 36 - 1/200, 200, 0, 0, true, BallKind.SOLID⟩ : Ball), false, false)] from by
      rw [List.map_cons, List.map_cons, List.map_nil, moveBall_startB, moveBall_startA]]
    simp [emptyTurnInfo]
  rw [hphase]
  unfold phase2
  rw [show pairIndices (([(⟨1, 12, 200, 0, 0, true, BallKind.SOLID⟩ : Ball),
    ⟨2, 36 - 1/200, 200, 0, 0, true, BallKind.SOLID⟩] : List Ball)).length =
    [((0:ℕ), (1:ℕ))] from rfl]
  rw [List.foldl_cons, List.foldl_nil]
  rw [show (1:ℝ)/400 = 1/200/2 by norm_num]
  exact collideAt_cex (1/200) (by norm_num) (by norm_num)

lemma iterate_cex : ∀ (n : ℕ) (v : ℝ), 0 < v → v ≤ 1/400 →
    (subStep false)^[n] (cexPhys v) = cexPhys (v / 2^n) := by
  intro n
  induction n with
  | zero =>
    intro v h1 h2
    simp
  | succ n ih =>
    intro v h1 h2
    rw [Function.iterate_succ_apply, subStep_cex v h1 h2,
      ih (v/2) (by positivity) (by linarith)]
    congr 1
    rw [pow_succ]
    field_simp
    left
    ring



/-- Counterexample to claim C5 as stated: ball 1 rests against the left
cushion and ball 2 rolls into it slowly enough to be stopped by the
deceleration clamp in the first sub-step.  Every subsequent sub-step clamps
ball 1 back to the cushion and then the overlap separation pushes it past
the cushion again, halving the overlap each time; the frame settles with
ball 1 active at `x = 12 - 1/51200 < BALL_RADIUS`. -/
theorem C5_cex : ¬ claimC5 := by
  intro h
  have hframe : physFrame false cexStartBalls emptyTurnInfo = cexPhys (1/51200) := by
    unfold physFrame SUB_STEPS
    rw [show (8:ℕ) = 7 + 1 from rfl, Function.iterate_succ_apply, subStep_start,
      iterate_cex 7 (1/400) (by norm_num) (by norm_num)]
    congr 1
    norm_num
  have h2 := h cexStartBalls emptyTurnInfo (by rw [hframe]; rfl)
  have h3 := h2 (cexBallB (1/51200)) (by rw [hframe]; exact List.mem_cons_self _ _) rfl
  have h4 := h3.1
  norm_num [cexBallB, BALL_RADIUS] at h4

set_option maxHeartbeats 2000000 in
/-- Claim C5, amended: after the per-ball integration / wall / pocket stage
of a sub-step every processed ball lies within the table bounds; the claim
as stated fails only through the subsequent pairwise overlap separation,
which can leave a settled ball slightly outside the cushion. -/
theorem C5_amended (b : Ball) (hb : b.active = true) :
    ballInBounds (moveBall false b).1 := by
  unfold moveBall
  rw [if_neg (by simp [hb])]
  dsimp only
  unfold ballInBounds BALL_RADIUS TABLE_WIDTH TABLE_HEIGHT
  split_ifs <;> dsimp only <;>
    refine ⟨by first | linarith | norm_num, by first | linarith | norm_num,
      by first | linarith | norm_num, by first | linarith | norm_num⟩

/-- Witness for the amended C5 at a concrete active ball. -/
theorem C5_amended_witness :
    ballInBounds (moveBall false (⟨3, 100, 100, 0, 0, true, BallKind.SOLID⟩ : Ball)).1 :=
  C5_amended ⟨3, 100, 100, 0, 0, true, BallKind.SOLID⟩ rfl

end Billiards
